import Mathlib

/-!
Shallow embedding of the `minhook-detours-rs` hook-lifecycle guard
(`src/guard/mod.rs`, `src/guard/thread_freeze/mod.rs`, `src/error/mod.rs`).

Pointers (`*mut c_void`) are modelled as `Nat`, with `0` playing the role of
the null pointer.  The external MinHook engine is modelled as a record of
state-passing functions (one per capability of the consumed surface); each
guard operation threads the engine state explicitly and additionally returns
the list of engine calls it issued, so that claims about which engine calls
happen (and in which order) can be stated.  The `unreachable!()` branch of
`From<MH_STATUS> for Error` is modelled by `Option`: `none` is a panic.
-/

/-- Pointer-sized opaque value (`*mut c_void`); `0` is the null pointer. -/
abbrev Ptr : Type := Nat

/-- The null pointer (`std::ptr::null_mut()`). -/
def nullPtr : Ptr := 0

/-- Native status codes of the MinHook engine (`MH_STATUS` in
`minhook-detours-sys`): the fixed, closed enumeration consisting of
`MH_UNKNOWN`, `MH_OK` and the fourteen error constants imported by
`src/error/mod.rs`. -/
inductive MH_STATUS where
  | MH_UNKNOWN
  | MH_OK
  | MH_ERROR_ALREADY_INITIALIZED
  | MH_ERROR_NOT_INITIALIZED
  | MH_ERROR_UNABLE_TO_UNINITIALIZE
  | MH_ERROR_ALREADY_CREATED
  | MH_ERROR_NOT_CREATED
  | MH_ERROR_ENABLED
  | MH_ERROR_DISABLED
  | MH_ERROR_NOT_EXECUTABLE
  | MH_ERROR_DETOURS_TRANSACTION_BEGIN
  | MH_ERROR_DETOURS_TRANSACTION_COMMIT
  | MH_ERROR_UNSUPPORTED_FUNCTION
  | MH_ERROR_MEMORY_ALLOC
  | MH_ERROR_MODULE_NOT_FOUND
  | MH_ERROR_FUNCTION_NOT_FOUND
deriving DecidableEq, Repr

/-- Native thread-freeze methods (`MH_THREAD_FREEZE_METHOD` in
`minhook-detours-sys`): the three constants imported by
`src/guard/thread_freeze/mod.rs`. -/
inductive MH_THREAD_FREEZE_METHOD where
  | MH_FREEZE_METHOD_ORIGINAL
  | MH_FREEZE_METHOD_FAST_UNDOCUMENTED
  | MH_FREEZE_METHOD_NONE_UNSAFE
deriving DecidableEq, Repr

/-- The error taxonomy of `src/error/mod.rs` (`pub enum Error`): fourteen
MinHook-native cases plus the locally synthesized `InvalidTarget`. -/
inductive Error where
  | AlreadyInitialized
  | NotInitialized
  | UnableToInitialize
  | AlreadyCreated
  | NotCreated
  | Enabled
  | Disabled
  | NotExecutable
  | FailedTransactionBegin
  | FailedTransactionCommit
  | UnsupportedFunction
  | FailedAllocatingMemory
  | ModuleNotFound
  | FunctionNotFound
  | InvalidTarget
deriving DecidableEq, Repr

/-- `impl From<MH_STATUS> for Error` (`src/error/mod.rs` lines 53-78):
the fourteen mapped native error constants produce `some` of the
corresponding variant; the `_ => unreachable!()` branch — a panic — is
modelled as `none`. -/
def Error.ofStatus : MH_STATUS → Option Error
  | MH_STATUS.MH_ERROR_ALREADY_INITIALIZED => some Error.AlreadyInitialized
  | MH_STATUS.MH_ERROR_NOT_INITIALIZED => some Error.NotInitialized
  | MH_STATUS.MH_ERROR_UNABLE_TO_UNINITIALIZE => some Error.UnableToInitialize
  | MH_STATUS.MH_ERROR_ALREADY_CREATED => some Error.AlreadyCreated
  | MH_STATUS.MH_ERROR_NOT_CREATED => some Error.NotCreated
  | MH_STATUS.MH_ERROR_ENABLED => some Error.Enabled
  | MH_STATUS.MH_ERROR_DISABLED => some Error.Disabled
  | MH_STATUS.MH_ERROR_NOT_EXECUTABLE => some Error.NotExecutable
  | MH_STATUS.MH_ERROR_DETOURS_TRANSACTION_BEGIN => some Error.FailedTransactionBegin
  | MH_STATUS.MH_ERROR_DETOURS_TRANSACTION_COMMIT => some Error.FailedTransactionCommit
  | MH_STATUS.MH_ERROR_UNSUPPORTED_FUNCTION => some Error.UnsupportedFunction
  | MH_STATUS.MH_ERROR_MEMORY_ALLOC => some Error.FailedAllocatingMemory
  | MH_STATUS.MH_ERROR_MODULE_NOT_FOUND => some Error.ModuleNotFound
  | MH_STATUS.MH_ERROR_FUNCTION_NOT_FOUND => some Error.FunctionNotFound
  | _ => none

/-- The MinHook thread-freeze configuration (`pub enum ThreadFreezeMethod`,
`src/guard/thread_freeze/mod.rs`). -/
inductive ThreadFreezeMethod where
  | Original
  | None
deriving DecidableEq, Repr

/-- `impl From<MH_THREAD_FREEZE_METHOD> for ThreadFreezeMethod`: both
`MH_FREEZE_METHOD_ORIGINAL` and `MH_FREEZE_METHOD_FAST_UNDOCUMENTED`
collapse to `Original`; the third constant maps to `None`.  The source's
`_ => unreachable!()` arm is dead because the native enumeration has
exactly these three constants, so the map is total here. -/
def ThreadFreezeMethod.ofNative : MH_THREAD_FREEZE_METHOD → ThreadFreezeMethod
  | MH_THREAD_FREEZE_METHOD.MH_FREEZE_METHOD_ORIGINAL => ThreadFreezeMethod.Original
  | MH_THREAD_FREEZE_METHOD.MH_FREEZE_METHOD_FAST_UNDOCUMENTED => ThreadFreezeMethod.Original
  | MH_THREAD_FREEZE_METHOD.MH_FREEZE_METHOD_NONE_UNSAFE => ThreadFreezeMethod.None

/-- `impl Into<MH_THREAD_FREEZE_METHOD> for ThreadFreezeMethod`
(`src/guard/thread_freeze/mod.rs` lines 25-32). -/
def ThreadFreezeMethod.into : ThreadFreezeMethod → MH_THREAD_FREEZE_METHOD
  | ThreadFreezeMethod.Original => MH_THREAD_FREEZE_METHOD.MH_FREEZE_METHOD_ORIGINAL
  | ThreadFreezeMethod.None => MH_THREAD_FREEZE_METHOD.MH_FREEZE_METHOD_NONE_UNSAFE

/-- The external MinHook engine, as the capability surface the guard
consumes, parametrized over an opaque engine-state type `σ`.  Each
capability consumes the state and returns the native status (for
`engine_register`, also the trampoline address written through the
`original` out-parameter on success) together with the next state. -/
structure MHEngine (σ : Type) where
  engine_init : σ → MH_STATUS × σ
  engine_uninit : σ → MH_STATUS × σ
  engine_set_freeze_policy : MH_THREAD_FREEZE_METHOD → σ → MH_STATUS × σ
  engine_register : Ptr → Ptr → σ → (MH_STATUS × Ptr) × σ
  engine_enable : Ptr → σ → MH_STATUS × σ
  engine_disable : Ptr → σ → MH_STATUS × σ

/-- One engine call issued by the guard, recorded for trace claims. -/
inductive EngineCall where
  | init
  | uninit
  | set_freeze_policy (m : MH_THREAD_FREEZE_METHOD)
  | register (target detour : Ptr)
  | enable (target : Ptr)
  | disable (target : Ptr)
deriving DecidableEq, Repr

/-- `const MH_ALL_HOOKS: *mut c_void = std::ptr::null_mut()`
(`src/guard/mod.rs` line 19). -/
def MH_ALL_HOOKS : Ptr := nullPtr

/-- The guard state (`pub struct DetourGuard`): the vector of original
(trampoline) pointers it holds.  The `PhantomData` field carries no state. -/
structure DetourGuard where
  original_pointers : List Ptr
deriving DecidableEq, Repr

/-- `impl Default for DetourGuard` (`src/guard/mod.rs` lines 235-242). -/
def DetourGuard.default : DetourGuard := { original_pointers := [] }

/-- The `if status == MH_OK { Ok(a) } else { Err(Error::from(status)) }`
idiom every engine-calling method ends with.  `none` is the panic inside
`Error::from` on a status outside the fourteen mapped error constants. -/
def mapStatus (status : MH_STATUS) (a : α) : Option (Except Error α) :=
  if status = MH_STATUS.MH_OK then some (Except.ok a)
  else (Error.ofStatus status).map Except.error

/-- `DetourGuard::new` (`src/guard/mod.rs` lines 33-44): call
`MH_Initialize`; on `MH_OK` return `Self::default()`, otherwise
`Err(Error::from(status))`. -/
def DetourGuard.new (eng : MHEngine σ) (s : σ) :
    Option (Except Error DetourGuard) × σ × List EngineCall :=
  let r := eng.engine_init s
  (mapStatus r.1 DetourGuard.default, r.2, [EngineCall.init])

/-- `DetourGuard::try_close` (`src/guard/mod.rs` lines 52-64): call
`MH_Uninitialize` and map the status.  Takes `&mut self`; the guard value
itself is unchanged. -/
def DetourGuard.try_close (eng : MHEngine σ) (g : DetourGuard) (s : σ) :
    Option (Except Error Unit) × DetourGuard × σ × List EngineCall :=
  let r := eng.engine_uninit s
  (mapStatus r.1 (), g, r.2, [EngineCall.uninit])

/-- `impl Drop for DetourGuard` (`src/guard/mod.rs` lines 227-233): run
`try_close`; a typed failure is printed to stderr and discarded (`none`
engine state here means `try_close` panicked and the panic propagates). -/
def DetourGuard.drop (eng : MHEngine σ) (g : DetourGuard) (s : σ) :
    Option σ × List EngineCall :=
  let r := DetourGuard.try_close eng g s
  match r.1 with
  | none => (none, r.2.2.2)
  | some _ => (some r.2.2.1, r.2.2.2)

/-- `DetourGuard::close` (`src/guard/mod.rs` lines 72-79): `self` is taken
by value.  `self.try_close()?` runs first; on success `std::mem::forget(self)`
suppresses the destructor and `Ok(())` is returned.  On failure the `?`
returns the error, and — because `self` was moved into `close` and not
forgotten — `self` is dropped when `close` returns, so `Drop::drop` (and
with it a second `MH_Uninitialize`) runs immediately inside this call. -/
def DetourGuard.close (eng : MHEngine σ) (g : DetourGuard) (s : σ) :
    Option (Except Error Unit) × σ × List EngineCall :=
  let r := DetourGuard.try_close eng g s
  match r.1 with
  | none => (none, r.2.2.1, r.2.2.2)
  | some (Except.ok _) => (some (Except.ok ()), r.2.2.1, r.2.2.2)
  | some (Except.error e) =>
      let d := DetourGuard.drop eng r.2.1 r.2.2.1
      match d.1 with
      | none => (none, r.2.2.1, r.2.2.2 ++ d.2)
      | some s2 => (some (Except.error e), s2, r.2.2.2 ++ d.2)

/-- `DetourGuard::set_thread_freeze_method` (`src/guard/mod.rs` lines
86-98): forward `thread_freeze_method.into()` to the engine and map the
status. -/
def DetourGuard.set_thread_freeze_method (eng : MHEngine σ) (g : DetourGuard)
    (s : σ) (m : ThreadFreezeMethod) :
    Option (Except Error Unit) × DetourGuard × σ × List EngineCall :=
  let r := eng.engine_set_freeze_policy (ThreadFreezeMethod.into m) s
  (mapStatus r.1 (), g, r.2, [EngineCall.set_freeze_policy (ThreadFreezeMethod.into m)])

/-- `DetourGuard::create_hook` (`src/guard/mod.rs` lines 113-133): push a
null slot onto `original_pointers`, pass its address to `MH_CreateHook` as
the `original` out-parameter, and on `MH_OK` return a reference to the slot
(modelled by the trampoline value the engine wrote there); on any other
status return `Err(Error::from(status))` — the pushed slot is not popped
and still holds null. -/
def DetourGuard.create_hook (eng : MHEngine σ) (g : DetourGuard) (s : σ)
    (target detour : Ptr) :
    Option (Except Error Ptr) × DetourGuard × σ × List EngineCall :=
  let r := eng.engine_register target detour s
  if r.1.1 = MH_STATUS.MH_OK then
    (some (Except.ok r.1.2),
     { original_pointers := g.original_pointers ++ [r.1.2] }, r.2,
     [EngineCall.register target detour])
  else
    ((Error.ofStatus r.1.1).map Except.error,
     { original_pointers := g.original_pointers ++ [nullPtr] }, r.2,
     [EngineCall.register target detour])

/-- `DetourGuard::enable_hook` (`src/guard/mod.rs` lines 161-177): a null
target is rejected locally with `Error::InvalidTarget` before any engine
call; otherwise `MH_EnableHook(target)` is issued and its status mapped. -/
def DetourGuard.enable_hook (eng : MHEngine σ) (g : DetourGuard) (s : σ)
    (target : Ptr) :
    Option (Except Error Unit) × DetourGuard × σ × List EngineCall :=
  if target = nullPtr then
    (some (Except.error Error.InvalidTarget), g, s, [])
  else
    let r := eng.engine_enable target s
    (mapStatus r.1 (), g, r.2, [EngineCall.enable target])

/-- `DetourGuard::enable_all_hooks` (`src/guard/mod.rs` lines 180-189):
one `MH_EnableHook(MH_ALL_HOOKS)` call. -/
def DetourGuard.enable_all_hooks (eng : MHEngine σ) (g : DetourGuard) (s : σ) :
    Option (Except Error Unit) × DetourGuard × σ × List EngineCall :=
  let r := eng.engine_enable MH_ALL_HOOKS s
  (mapStatus r.1 (), g, r.2, [EngineCall.enable MH_ALL_HOOKS])

/-- `DetourGuard::disable_hook` (`src/guard/mod.rs` lines 196-212):
symmetric to `enable_hook`. -/
def DetourGuard.disable_hook (eng : MHEngine σ) (g : DetourGuard) (s : σ)
    (target : Ptr) :
    Option (Except Error Unit) × DetourGuard × σ × List EngineCall :=
  if target = nullPtr then
    (some (Except.error Error.InvalidTarget), g, s, [])
  else
    let r := eng.engine_disable target s
    (mapStatus r.1 (), g, r.2, [EngineCall.disable target])

/-- `DetourGuard::disable_all_hooks` (`src/guard/mod.rs` lines 215-224):
one `MH_DisableHook(MH_ALL_HOOKS)` call. -/
def DetourGuard.disable_all_hooks (eng : MHEngine σ) (g : DetourGuard) (s : σ) :
    Option (Except Error Unit) × DetourGuard × σ × List EngineCall :=
  let r := eng.engine_disable MH_ALL_HOOKS s
  (mapStatus r.1 (), g, r.2, [EngineCall.disable MH_ALL_HOOKS])

/-- `DetourGuard::create_and_enable_hook` (`src/guard/mod.rs` lines
146-154): `let result = self.create_hook(target, detour)?;
self.enable_hook(target)?; Ok(result)`. -/
def DetourGuard.create_and_enable_hook (eng : MHEngine σ) (g : DetourGuard)
    (s : σ) (target detour : Ptr) :
    Option (Except Error Ptr) × DetourGuard × σ × List EngineCall :=
  let c := DetourGuard.create_hook eng g s target detour
  match c.1 with
  | none => (none, c.2.1, c.2.2.1, c.2.2.2)
  | some (Except.error e) => (some (Except.error e), c.2.1, c.2.2.1, c.2.2.2)
  | some (Except.ok r) =>
      let e2 := DetourGuard.enable_hook eng c.2.1 c.2.2.1 target
      match e2.1 with
      | none => (none, e2.2.1, e2.2.2.1, c.2.2.2 ++ e2.2.2.2)
      | some (Except.error e) => (some (Except.error e), e2.2.1, e2.2.2.1, c.2.2.2 ++ e2.2.2.2)
      | some (Except.ok _) => (some (Except.ok r), e2.2.1, e2.2.2.1, c.2.2.2 ++ e2.2.2.2)

/-!  Concrete engines used as witnesses and counterexamples. -/

/-- An engine over trivial state that answers every call with the fixed
status `st` and writes `w` through `engine_register`'s out-parameter. -/
def constEngine (st : MH_STATUS) (w : Ptr) : MHEngine Unit :=
  ⟨fun s => (st, s), fun s => (st, s), fun _ s => (st, s),
   fun _ _ s => ((st, w), s), fun _ s => (st, s), fun _ s => (st, s)⟩

/-- An engine that succeeds on everything, handing out trampoline `42`. -/
def okEngine : MHEngine Unit := constEngine MH_STATUS.MH_OK 42

/-- An engine whose `engine_uninit` always fails (every other call
succeeds), to exercise the failing-close paths. -/
def failUninitEngine : MHEngine Unit :=
  ⟨fun s => (MH_STATUS.MH_OK, s),
   fun s => (MH_STATUS.MH_ERROR_NOT_INITIALIZED, s),
   fun _ s => (MH_STATUS.MH_OK, s),
   fun _ _ s => ((MH_STATUS.MH_OK, 42), s),
   fun _ s => (MH_STATUS.MH_OK, s),
   fun _ s => (MH_STATUS.MH_OK, s)⟩

/-- An engine whose `engine_register` always fails with
`MH_ERROR_NOT_EXECUTABLE` (writing `77` through the out-parameter, which
a failing MinHook call does not do — the guard must ignore it). -/
def failRegisterEngine : MHEngine Unit :=
  ⟨fun s => (MH_STATUS.MH_OK, s),
   fun s => (MH_STATUS.MH_OK, s),
   fun _ s => (MH_STATUS.MH_OK, s),
   fun _ _ s => ((MH_STATUS.MH_ERROR_NOT_EXECUTABLE, 77), s),
   fun _ s => (MH_STATUS.MH_OK, s),
   fun _ s => (MH_STATUS.MH_OK, s)⟩

/-- An engine whose `engine_enable` always fails with
`MH_ERROR_NOT_CREATED` (every other call succeeds). -/
def failEnableEngine : MHEngine Unit :=
  ⟨fun s => (MH_STATUS.MH_OK, s),
   fun s => (MH_STATUS.MH_OK, s),
   fun _ s => (MH_STATUS.MH_OK, s),
   fun _ _ s => ((MH_STATUS.MH_OK, 42), s),
   fun _ s => (MH_STATUS.MH_ERROR_NOT_CREATED, s),
   fun _ s => (MH_STATUS.MH_OK, s)⟩

/-- The composition the spec describes for `create_and_enable_hook`
(§4.1): run `create_hook`; on a creation failure stop with creation's
outcome (no enable attempted); on success run `enable_hook(target)` on the
post-creation state, keeping that state even when enabling fails (no
rollback of the registration), and return the created value only when both
steps succeed. -/
def createThenEnableSpec (eng : MHEngine σ) (g : DetourGuard) (s : σ)
    (target detour : Ptr) :
    Option (Except Error Ptr) × DetourGuard × σ × List EngineCall :=
  let c := DetourGuard.create_hook eng g s target detour
  match c.1 with
  | some (Except.ok r) =>
      let e2 := DetourGuard.enable_hook eng c.2.1 c.2.2.1 target
      ((match e2.1 with
        | some (Except.ok _) => some (Except.ok r)
        | some (Except.error e) => some (Except.error e)
        | none => none),
       e2.2.1, e2.2.2.1, c.2.2.2 ++ e2.2.2.2)
  | _ => c

/-- Result faithfulness for one engine-backed operation: the result is
`Ok` (of the expected success value) exactly when the engine status is
`MH_OK`, and otherwise it is `Err` of the variant the taxonomy assigns to
that status — the status is never discarded. -/
def faithfulResult (r : Option (Except Error α)) (st : MH_STATUS) (a : α) : Prop :=
  (st = MH_STATUS.MH_OK → r = some (Except.ok a))
  ∧ (st ≠ MH_STATUS.MH_OK →
      ∃ e, Error.ofStatus st = some e ∧ r = some (Except.error e))

/-!  Claim theorems. -/

/-- C4: for every guard, `enable_hook(null)` and `disable_hook(null)`
return `Err(InvalidTarget)` synthesized locally, issue no engine call,
and leave the guard, and the engine state, unchanged. -/
theorem null_target_rejected (σ : Type) (eng : MHEngine σ) (g : DetourGuard) (s : σ) :
    DetourGuard.enable_hook eng g s nullPtr
      = (some (Except.error Error.InvalidTarget), g, s, [])
    ∧ DetourGuard.disable_hook eng g s nullPtr
      = (some (Except.error Error.InvalidTarget), g, s, []) :=
  ⟨rfl, rfl⟩

/-- C7: `enable_all_hooks` and `disable_all_hooks` each issue exactly one
engine call, on the all-hooks sentinel `MH_ALL_HOOKS` (which is the null
pointer) — a single transaction, not a loop of single-target calls. -/
theorem bulk_ops_single_sentinel_call (σ : Type) (eng : MHEngine σ)
    (g : DetourGuard) (s : σ) :
    MH_ALL_HOOKS = nullPtr
    ∧ (DetourGuard.enable_all_hooks eng g s).2.2.2 = [EngineCall.enable MH_ALL_HOOKS]
    ∧ (DetourGuard.disable_all_hooks eng g s).2.2.2 = [EngineCall.disable MH_ALL_HOOKS] :=
  ⟨rfl, rfl, rfl⟩

/-- C8: both `MH_FREEZE_METHOD_ORIGINAL` and
`MH_FREEZE_METHOD_FAST_UNDOCUMENTED` convert to the logical `Original`,
`MH_FREEZE_METHOD_NONE_UNSAFE` converts to `None`, and converting a
logical value to the native representation and back is the identity. -/
theorem thread_freeze_conversions :
    ThreadFreezeMethod.ofNative MH_THREAD_FREEZE_METHOD.MH_FREEZE_METHOD_ORIGINAL
      = ThreadFreezeMethod.Original
    ∧ ThreadFreezeMethod.ofNative MH_THREAD_FREEZE_METHOD.MH_FREEZE_METHOD_FAST_UNDOCUMENTED
      = ThreadFreezeMethod.Original
    ∧ ThreadFreezeMethod.ofNative MH_THREAD_FREEZE_METHOD.MH_FREEZE_METHOD_NONE_UNSAFE
      = ThreadFreezeMethod.None
    ∧ ∀ p : ThreadFreezeMethod, ThreadFreezeMethod.ofNative (ThreadFreezeMethod.into p) = p := by
  refine ⟨rfl, rfl, rfl, ?_⟩
  intro p
  cases p <;> rfl

/-- C10: the `From<MH_STATUS> for Error` conversion is partial: its
`unreachable!()` branch (modelled by `none`) is taken exactly on `MH_OK`
and on the unlisted status `MH_UNKNOWN`, i.e. it is avoided exactly when
the input is one of the fourteen mapped native error constants — so call
sites must establish `status != MH_OK` before converting. -/
theorem error_conversion_partiality :
    ∀ st : MH_STATUS, Error.ofStatus st = none
      ↔ (st = MH_STATUS.MH_OK ∨ st = MH_STATUS.MH_UNKNOWN) := by
  intro st
  cases st <;> simp [Error.ofStatus]

/-- Helper: `try_close` always issues exactly the one `MH_Uninitialize`
call. -/
theorem try_close_trace (σ : Type) (eng : MHEngine σ) (g : DetourGuard) (s : σ) :
    (DetourGuard.try_close eng g s).2.2.2 = [EngineCall.uninit] := rfl

/-- Helper: the destructor always issues exactly one `MH_Uninitialize`
call (whatever its status). -/
theorem drop_trace (σ : Type) (eng : MHEngine σ) (g : DetourGuard) (s : σ) :
    (DetourGuard.drop eng g s).2 = [EngineCall.uninit] := by
  unfold DetourGuard.drop DetourGuard.try_close
  cases h : mapStatus (eng.engine_uninit s).1 () <;> simp [h]

/-- C3 counterexample: with an engine whose registration fails
(`MH_ERROR_NOT_EXECUTABLE`), `create_hook` on a fresh guard returns the
mapped error yet the guard's `original_pointers` is no longer unchanged —
it now holds one null entry, which is not the address of a callable
trampoline. -/
theorem create_hook_error_mutates :
    (DetourGuard.create_hook failRegisterEngine DetourGuard.default () 10 20).1
      = some (Except.error Error.NotExecutable)
    ∧ (DetourGuard.create_hook failRegisterEngine DetourGuard.default () 10 20).2.1.original_pointers
      = [nullPtr]
    ∧ DetourGuard.default.original_pointers = [] :=
  ⟨rfl, rfl, rfl⟩

/-- C3 (amended): every `create_hook` call — failing or not — appends
exactly one slot to `original_pointers`: the trampoline address the engine
wrote when the status is `MH_OK`, and the null placeholder pushed before
the engine call otherwise. -/
theorem create_hook_appends_one_slot (σ : Type) (eng : MHEngine σ)
    (g : DetourGuard) (s : σ) (t d : Ptr) :
    (DetourGuard.create_hook eng g s t d).2.1.original_pointers
      = g.original_pointers ++
        [if (eng.engine_register t d s).1.1 = MH_STATUS.MH_OK
          then (eng.engine_register t d s).1.2 else nullPtr] := by
  unfold DetourGuard.create_hook
  by_cases h : (eng.engine_register t d s).1.1 = MH_STATUS.MH_OK <;> simp [h]

/-- C1 counterexample: with an engine whose uninitialization fails,
`close()` does not return ownership and the automatic teardown does not
wait to "run later": `close`'s own execution already contains a second
`MH_Uninitialize` call — the guard was consumed and its destructor ran
immediately inside `close`. -/
theorem close_failure_immediate_drop :
    (DetourGuard.close failUninitEngine DetourGuard.default ()).1
      = some (Except.error Error.NotInitialized)
    ∧ (DetourGuard.close failUninitEngine DetourGuard.default ()).2.2
      = [EngineCall.uninit, EngineCall.uninit] :=
  ⟨rfl, rfl⟩

/-- C1 (amended): `close()` always consumes the guard.  When `try_close()`
fails, `close` returns the typed error (or propagates a panic), ownership
does not return to the caller, and the destructor runs immediately within
`close`, issuing a second uninitialization attempt — so `close`'s engine
trace is two `MH_Uninitialize` calls. -/
theorem close_always_consumes (σ : Type) (eng : MHEngine σ) (g : DetourGuard)
    (s : σ) (e : Error)
    (h : (DetourGuard.try_close eng g s).1 = some (Except.error e)) :
    (DetourGuard.close eng g s).2.2 = [EngineCall.uninit, EngineCall.uninit]
    ∧ ((DetourGuard.close eng g s).1 = some (Except.error e)
       ∨ (DetourGuard.close eng g s).1 = none) := by
  unfold DetourGuard.close
  rcases hd : (DetourGuard.drop eng (DetourGuard.try_close eng g s).2.1
      (DetourGuard.try_close eng g s).2.2.1).1 with _ | s2 <;>
    simp [h, hd, try_close_trace, drop_trace]

/-- C1 witness for the amended theorem, at the concrete failing engine. -/
theorem close_always_consumes_witness :
    (DetourGuard.close failUninitEngine DetourGuard.default ()).2.2
      = [EngineCall.uninit, EngineCall.uninit]
    ∧ ((DetourGuard.close failUninitEngine DetourGuard.default ()).1
        = some (Except.error Error.NotInitialized)
       ∨ (DetourGuard.close failUninitEngine DetourGuard.default ()).1 = none) :=
  close_always_consumes Unit failUninitEngine DetourGuard.default ()
    Error.NotInitialized rfl

/-- C2: whenever `close()` returns `Ok(())`, its whole execution issued
exactly one `MH_Uninitialize` call and the destructor never ran
(`std::mem::forget` suppressed it), so the engine uninitialization is
invoked at most once for a successfully closed guard. -/
theorem close_ok_no_drop (σ : Type) (eng : MHEngine σ) (g : DetourGuard)
    (s : σ) (h : (DetourGuard.close eng g s).1 = some (Except.ok ())) :
    (DetourGuard.close eng g s).2.2 = [EngineCall.uninit]
    ∧ (DetourGuard.close eng g s).2.2.count EngineCall.uninit = 1 := by
  rcases hm : (DetourGuard.try_close eng g s).1 with _ | m
  · rw [DetourGuard.close] at h
    simp [hm] at h
  · cases m with
    | ok u =>
      rw [DetourGuard.close]
      simp [hm, try_close_trace]
    | error e =>
      rw [DetourGuard.close] at h
      rcases hd : (DetourGuard.drop eng (DetourGuard.try_close eng g s).2.1
          (DetourGuard.try_close eng g s).2.2.1).1 with _ | s2 <;>
        simp [hm, hd] at h

/-- C2 witness at an engine whose uninitialization succeeds. -/
theorem close_ok_no_drop_witness :
    (DetourGuard.close okEngine DetourGuard.default ()).2.2 = [EngineCall.uninit]
    ∧ (DetourGuard.close okEngine DetourGuard.default ()).2.2.count EngineCall.uninit = 1 :=
  close_ok_no_drop Unit okEngine DetourGuard.default () rfl

/-- C5: `create_and_enable_hook` is observably the sequential composition
of `create_hook` then `enable_hook(target)` as the spec states it, and
`enable_hook` never alters the guard's registration state, so a
post-creation enable failure leaves the registration in place. -/
theorem create_and_enable_is_composition (σ : Type) (eng : MHEngine σ)
    (g : DetourGuard) (s : σ) (t d : Ptr) :
    DetourGuard.create_and_enable_hook eng g s t d = createThenEnableSpec eng g s t d
    ∧ ∀ (g' : DetourGuard) (s' : σ), (DetourGuard.enable_hook eng g' s' t).2.1 = g' := by
  constructor
  · unfold DetourGuard.create_and_enable_hook createThenEnableSpec
    rcases h : (DetourGuard.create_hook eng g s t d).1 with _ | x
    · simp [h]
      exact Prod.ext_iff.mpr ⟨h.symm, rfl⟩
    · cases x with
      | error e =>
        simp [h]
        exact Prod.ext_iff.mpr ⟨h.symm, rfl⟩
      | ok r =>
        rcases h2 : (DetourGuard.enable_hook eng
            (DetourGuard.create_hook eng g s t d).2.1
            (DetourGuard.create_hook eng g s t d).2.2.1 t).1 with _ | y
        · simp [h, h2]
        · cases y with
          | error e => simp [h, h2]
          | ok u => simp [h, h2]
  · intro g' s'
    unfold DetourGuard.enable_hook
    by_cases ht : t = nullPtr <;> simp [ht]

/-- C6: for every status of the closed native enumeration (everything but
the never-returned `MH_UNKNOWN`), each public engine-invoking operation —
`new`, `try_close`, `set_thread_freeze_method`, `create_hook`,
`enable_hook` and `disable_hook` on a non-null target, `enable_all_hooks`,
`disable_all_hooks` — returns `Ok` exactly on `MH_OK` and otherwise the
typed error corresponding to the status. -/
theorem engine_status_mapping (st : MH_STATUS) (w : Ptr) (g : DetourGuard)
    (m : ThreadFreezeMethod) (t d : Ptr)
    (hst : st ≠ MH_STATUS.MH_UNKNOWN) (ht : t ≠ nullPtr) :
    faithfulResult (DetourGuard.new (constEngine st w) ()).1 st DetourGuard.default
    ∧ faithfulResult (DetourGuard.try_close (constEngine st w) g ()).1 st ()
    ∧ faithfulResult (DetourGuard.set_thread_freeze_method (constEngine st w) g () m).1 st ()
    ∧ faithfulResult (DetourGuard.create_hook (constEngine st w) g () t d).1 st w
    ∧ faithfulResult (DetourGuard.enable_hook (constEngine st w) g () t).1 st ()
    ∧ faithfulResult (DetourGuard.disable_hook (constEngine st w) g () t).1 st ()
    ∧ faithfulResult (DetourGuard.enable_all_hooks (constEngine st w) g ()).1 st ()
    ∧ faithfulResult (DetourGuard.disable_all_hooks (constEngine st w) g ()).1 st () := by
  cases st <;>
    simp_all [faithfulResult, DetourGuard.new, DetourGuard.try_close,
      DetourGuard.set_thread_freeze_method, DetourGuard.create_hook,
      DetourGuard.enable_hook, DetourGuard.disable_hook,
      DetourGuard.enable_all_hooks, DetourGuard.disable_all_hooks,
      mapStatus, Error.ofStatus, constEngine, nullPtr]

/-- C6 witness: the single-target enable on a non-null target, at the
concrete status `MH_ERROR_ENABLED`. -/
theorem engine_status_mapping_witness :
    faithfulResult
      (DetourGuard.enable_hook (constEngine MH_STATUS.MH_ERROR_ENABLED 5)
        DetourGuard.default () 3).1
      MH_STATUS.MH_ERROR_ENABLED () :=
  (engine_status_mapping MH_STATUS.MH_ERROR_ENABLED 5 DetourGuard.default
    ThreadFreezeMethod.Original 3 4 (by decide) (by decide)).2.2.2.2.1

/-- C9: `new()` returns on `MH_OK` a valid guard with an empty
original-pointer set, maps the already-initialized status to
`Err(AlreadyInitialized)`, and maps every other non-OK status of the
closed enumeration to its typed error — no status is ignored. -/
theorem new_status_mapping (σ : Type) (eng : MHEngine σ) (s : σ) :
    ((eng.engine_init s).1 = MH_STATUS.MH_OK →
      (DetourGuard.new eng s).1 = some (Except.ok DetourGuard.default)
      ∧ DetourGuard.default.original_pointers = [])
    ∧ ((eng.engine_init s).1 = MH_STATUS.MH_ERROR_ALREADY_INITIALIZED →
      (DetourGuard.new eng s).1 = some (Except.error Error.AlreadyInitialized))
    ∧ ((eng.engine_init s).1 ≠ MH_STATUS.MH_OK →
       (eng.engine_init s).1 ≠ MH_STATUS.MH_UNKNOWN →
      ∃ e, Error.ofStatus (eng.engine_init s).1 = some e
        ∧ (DetourGuard.new eng s).1 = some (Except.error e)) := by
  refine ⟨fun h => ?_, fun h => ?_, fun h1 h2 => ?_⟩
  · exact ⟨by simp [DetourGuard.new, mapStatus, h], rfl⟩
  · simp [DetourGuard.new, mapStatus, h, Error.ofStatus]
  · cases hst : (eng.engine_init s).1 <;>
      simp_all [DetourGuard.new, mapStatus, Error.ofStatus]

/-- C9 witness: the three branches at concrete engines reporting `MH_OK`,
the already-initialized error, and another mapped error. -/
theorem new_status_mapping_witness :
    ((DetourGuard.new (constEngine MH_STATUS.MH_OK 0) ()).1
        = some (Except.ok DetourGuard.default)
      ∧ DetourGuard.default.original_pointers = [])
    ∧ (DetourGuard.new (constEngine MH_STATUS.MH_ERROR_ALREADY_INITIALIZED 0) ()).1
        = some (Except.error Error.AlreadyInitialized)
    ∧ ∃ e, Error.ofStatus ((constEngine MH_STATUS.MH_ERROR_NOT_INITIALIZED 0).engine_init ()).1
          = some e
        ∧ (DetourGuard.new (constEngine MH_STATUS.MH_ERROR_NOT_INITIALIZED 0) ()).1
          = some (Except.error e) :=
  ⟨(new_status_mapping Unit (constEngine MH_STATUS.MH_OK 0) ()).1 rfl,
   (new_status_mapping Unit (constEngine MH_STATUS.MH_ERROR_ALREADY_INITIALIZED 0) ()).2.1 rfl,
   (new_status_mapping Unit (constEngine MH_STATUS.MH_ERROR_NOT_INITIALIZED 0) ()).2.2
     (by decide) (by decide)⟩
